import Mathlib

/-!
Verification development for the `pydantic-settings-export` repository.

The definitions below are a shallow embedding, in Lean 4, of the parts of the
source code that the checked claims talk about:

* `src/pydantic_settings_export/models.py` — field/model descriptor extraction
  (`FieldInfoModel`, `SettingsInfoModel`, `value_to_jsonable`, `default_path`,
  `get_type_by_annotation`, `create_default`, `from_settings_field`,
  `from_settings_model`);
* `src/pydantic_settings_export/generators/abstract.py` — the shared renderer
  machinery (`BaseGeneratorSettings` truthiness, `file_paths`, `run`,
  `AbstractGenerator.__init_subclass__` registration);
* `src/pydantic_settings_export/generators/dotenv.py`, `markdown.py`,
  `simple.py` — the three concrete renderers;
* `src/pydantic_settings_export/exporter.py` — `Exporter.run_all`;
* `src/pydantic_settings_export/utils.py` — the Markdown table helpers.

Python-level behaviour (string methods, truthiness, `pathlib` semantics,
`==` between unrelated types) is modelled by small helper functions named
`py...`; each carries a comment tying it to the Python construct it models.
External library calls (pydantic serialization, `text_region_parser`) are
modelled as explicit function parameters so that theorems quantify over their
behaviour; file systems are modelled as maps from paths to optional contents.
-/

/-! ## Python semantics helpers -/

/-- Characters stripped by Python `str.strip()` / `str.rstrip()`:
space, tab, newline, carriage return, vertical tab, form feed. -/
def isPySpace (c : Char) : Bool :=
  (c == ' ') || (c == '\t') || (c == '\n') || (c == '\r') || (c == '\x0b') || (c == '\x0c')

/-- Python `str.strip()`: remove leading and trailing whitespace. -/
def pyStrip (s : String) : String :=
  String.mk (((s.data.dropWhile isPySpace).reverse.dropWhile isPySpace).reverse)

/-- Python `str.rstrip()`: remove trailing whitespace. -/
def pyRstrip (s : String) : String :=
  String.mk ((s.data.reverse.dropWhile isPySpace).reverse)

/-- Python `str.upper()` (ASCII letters, which is all the source ever upper-cases). -/
def pyUpper (s : String) : String :=
  String.mk (s.data.map Char.toUpper)

/-- Python `a or b` for strings: the empty string is falsy. -/
def pyOrS (a b : String) : String :=
  if a = "" then b else a

/-- Python truthiness of an `Optional[str]`: `None` and `""` are falsy. -/
def pyTruthyOptStr : Option String → Bool
  | none => false
  | some s => s != ""

/-- A run of `n` copies of the character `c` (Python `c * n`). -/
def charRun (c : Char) (n : Nat) : String :=
  String.mk (List.replicate n c)

/-- Python `str(list_of_str)`, as used by the Simple renderer when it formats
`f"...: {field.types}"`: the `repr` of a list of strings. -/
def pyReprStrList (l : List String) : String :=
  "[" ++ String.intercalate ", " (l.map (fun s => "\x27" ++ s ++ "\x27")) ++ "]"

/-- Text before the first form feed: Python `s.split("\f", 1)[0]`. -/
def pySplitFormFeedHead (s : String) : String :=
  String.mk (s.data.takeWhile (fun c => c != '\x0c'))

/-! ## `pathlib.Path` model

A `PyPath` is an absolute flag plus the non-root components, mirroring
`PurePath.parts` (without the leading `/` entry for absolute paths).
`is_relative_to` in Python is a component-wise prefix test and is `False`
between an absolute and a relative path; `relative_to` drops the prefix and
always yields a relative path. -/

structure PyPath where
  absolute : Bool
  parts : List String
deriving Repr, DecidableEq

/-- Python `Path.is_absolute()`. -/
def PyPath.is_absolute (p : PyPath) : Bool := p.absolute

/-- Python `Path.is_relative_to(q)`: component-wise prefix match (not substring
match); an absolute path is never relative to a relative one or vice versa. -/
def PyPath.isRelativeTo (p q : PyPath) : Bool :=
  p.absolute == q.absolute && q.parts.isPrefixOf p.parts

/-- Python `Path.relative_to(q)` under the guard `p.is_relative_to q`. -/
def PyPath.relativeTo (p q : PyPath) : PyPath :=
  { absolute := false, parts := p.parts.drop q.parts.length }

/-- Python `root / p` (joining a relative path onto a base path). -/
def PyPath.joinPath (root p : PyPath) : PyPath :=
  { absolute := root.absolute, parts := root.parts ++ p.parts }

/-- Display form of a path, used in error messages (`f"{path}"`). -/
def pathStr (p : PyPath) : String :=
  (if p.absolute then "/" else "") ++ String.intercalate "/" p.parts

/-! ## Global settings (`settings.py`: `RelativeToSettings`, the relevant part
of the global `PSESettings`) -/

structure RelativeToSettings where
  replace_abs_paths : Bool
  aliasTok : String    -- source field name: `alias` (a Lean keyword)
deriving Repr, DecidableEq

structure PSESettings where
  root_dir : PyPath
  relative_to : RelativeToSettings
  respect_exclude : Bool
deriving Repr, DecidableEq

/-- Source `models.py` `default_path(default, global_settings)`: for an absolute path,
first (when global settings are given and the replace-absolute-paths policy is
on) rewrite a path under the project root to `alias / relative-part`, then
rewrite the (possibly already rewritten) result under the home directory to
`"~" / relative-part`. `Path.home()` is ambient state in Python and is passed
here as the `homeDir` argument; `root_dir.resolve().absolute()` is modelled by
taking `root_dir` as already resolved. -/
def default_path (homeDir : PyPath) (dflt : PyPath) (gs : Option PSESettings) : PyPath :=
  if dflt.is_absolute then
    let d1 : PyPath :=
      match gs with
      | some g =>
        if g.relative_to.replace_abs_paths && dflt.isRelativeTo g.root_dir then
          { absolute := false,
            parts := g.relative_to.aliasTok :: (dflt.relativeTo g.root_dir).parts }
        else dflt
      | none => dflt
    if d1.isRelativeTo homeDir then
      { absolute := false, parts := "~" :: (d1.relativeTo homeDir).parts }
    else d1
  else dflt

/-! ## Python values and external serialization (`models.py`:
`value_to_jsonable`, `_prepare_example`) -/

/-- A Python runtime value, as far as defaults and examples are concerned. -/
inductive PyVal where
  | vstr (s : String)
  | vint (n : Int)
  | vbool (b : Bool)
  | vpath (p : PyPath)
  | vset (xs : List PyVal)
  | vlist (xs : List PyVal)
  | vnone
  | vobj (clsName : String)
deriving Repr

/-- Python `<` between two set elements as used by `sorted`: defined for
homogeneous int/str/bool collections (heterogeneous comparisons raise in
Python; the model keeps such elements in place). -/
def PyVal.pyLt : PyVal → PyVal → Bool
  | .vint a, .vint b => a < b
  | .vstr a, .vstr b => a < b
  | .vbool a, .vbool b => !a && b
  | _, _ => false

/-- Insert into a sorted list (helper for the `sorted` model). -/
def pySortInsert (x : PyVal) : List PyVal → List PyVal
  | [] => [x]
  | y :: ys => if PyVal.pyLt x y then x :: y :: ys else y :: pySortInsert x ys

/-- Python `sorted` on the elements of a set (insertion sort, stable). -/
def pySortVals : List PyVal → List PyVal
  | [] => []
  | x :: xs => pySortInsert x (pySortVals xs)

/-- Exceptions relevant to `value_to_jsonable`. `PydanticSerializationError`
is what `dump_json` raises on a serialization failure;
`PydanticSchemaGenerationError` is what the `TypeAdapter(value_type)`
constructor itself raises when pydantic cannot build a schema for the type
(for example for a plain user-defined class); it is not a subclass of
`PydanticSerializationError`. -/
inductive PyExc where
  | serializationError (msg : String)
  | schemaGenerationError (msg : String)
deriving Repr, DecidableEq

/-- Source `models.py` `value_to_jsonable(value, value_type=None)`. The external call
`TypeAdapter(value_type).dump_json(value).decode()` is modelled by the
`dumpJson` oracle, which either returns the serialized string or raises one of
the exceptions above; `str(value)` is the `strFn` oracle. The source wraps the
external call in `try: ... except PydanticSerializationError: return
str(value)`, so only that exception is converted into the fallback; any other
exception propagates. -/
def value_to_jsonable (dumpJson : PyVal → Except PyExc String) (strFn : PyVal → String)
    (v : PyVal) : Except PyExc String :=
  match dumpJson v with
  | .ok s => .ok s
  | .error (.serializationError _) => .ok (strFn v)
  | .error e => .error e

/-- Source `models.py` `_prepare_example`: sets are sorted into lists before
serialization; the serialization itself is the caller-supplied oracle. -/
def prepareExampleVal : PyVal → PyVal
  | .vset xs => .vlist (pySortVals xs)
  | v => v

/-! ## Field annotations (`models.py`: `get_type_by_annotation`,
`constants.py`: `FIELD_TYPE_MAP`)

`TypeExpr` models a Python annotation object as seen through `typing.get_args`
/ `typing.get_origin`; `PyClass` models a plain class object. A nested pydantic
model class can itself appear as an annotation, so the two are mutually
inductive with the model type. -/

/-- One argument of a `Literal[...]` annotation: either the `None` object or a
value whose `json.dumps` form is recorded. -/
inductive LitVal where
  | lnone
  | lstr (s : String)
  | lint (n : Int)
  | lbool (b : Bool)
deriving Repr, DecidableEq

/-- Source `json.dumps(a, default=repr)` for a literal argument (plain strings,
without characters that need JSON escaping, which is what the source deals
with). -/
def litJson : LitVal → String
  | .lnone => "null"
  | .lstr s => "\"" ++ s ++ "\""
  | .lint n => toString n
  | .lbool true => "true"
  | .lbool false => "false"

/-- One entry of `AliasChoices.choices`: a string or an `AliasPath`
(whose items are rendered through `str` and joined with dots). -/
inductive AliasChoiceItem where
  | ci_str (s : String)
  | ci_path (items : List String)
deriving Repr, DecidableEq

/-- Source `models.py` `_alias_path_to_str`. -/
def aliasPathToStr : AliasChoiceItem → String
  | .ci_str s => s
  | .ci_path items => String.intercalate "." items

/-- A pydantic `validation_alias`: `str`, `AliasChoices` or `AliasPath`. -/
inductive ValAlias where
  | va_str (s : String)
  | va_choices (items : List AliasChoiceItem)
  | va_path (items : List String)
deriving Repr, DecidableEq

/-- The part of pydantic `model_config` that `from_settings_model` reads:
`title`, `env_prefix` and `env_nested_delimiter` (each `none` when the key is
missing; a key explicitly present with value `None` behaves the same where the
source applies an `or` fallback). -/
structure ModelConfig where
  title : Option String
  env_pfx : Option String            -- dict key "env_prefix"
  env_nested_delimiter : Option String
deriving Repr, DecidableEq

mutual
inductive TypeExpr where
  | cls (c : PyClass)
  | generic (origin : PyClass) (args : List TypeExpr)
  | unionT (args : List TypeExpr)
  | litT (vals : List LitVal)
  | fwdRef (arg : String) (value : Option String)

inductive PyClass where
  | pstr
  | pint
  | pfloat
  | pbool
  | plist
  | pdict
  | psecret
  | pNoneType
  | puser (clsName : String)
  | pmodel (m : PySettingsModel)

inductive PySettingsModel where
  | mk (clsName : String) (is_settings : Bool) (config : ModelConfig)
      (doc : Option String) (fields : List (String × PyFieldInfo))

inductive PyFieldInfo where
  | mk (ann : TypeExpr) (dflt : Option PyVal) (default_factory : Option PyVal)
      (description : Option String) (examples : List PyVal)
      (fieldAlias : Option String) (validation_alias : Option ValAlias)
      (deprecated : Bool) (exclude : Bool)
end

/-- Class name of a model class (`__name__`). -/
def PySettingsModel.clsName : PySettingsModel → String
  | .mk n _ _ _ _ => n

/-- Whether the model class subclasses `pydantic_settings.BaseSettings`. -/
def PySettingsModel.is_settings : PySettingsModel → Bool
  | .mk _ b _ _ _ => b

/-- Source `model_config` of the model class. -/
def PySettingsModel.config : PySettingsModel → ModelConfig
  | .mk _ _ c _ _ => c

/-- Source `inspect.getdoc` of the model class (`none` when absent). -/
def PySettingsModel.doc : PySettingsModel → Option String
  | .mk _ _ _ d _ => d

/-- Source `model_fields` of the model class, in declaration order. -/
def PySettingsModel.fieldList : PySettingsModel → List (String × PyFieldInfo)
  | .mk _ _ _ _ fs => fs

/-- Source `FieldInfo.annotation`. -/
def PyFieldInfo.ann : PyFieldInfo → TypeExpr
  | .mk a _ _ _ _ _ _ _ _ => a

/-- Source `FieldInfo.default` (`none` models `PydanticUndefined`; a Python `None`
default is `some .vnone`). -/
def PyFieldInfo.dflt : PyFieldInfo → Option PyVal
  | .mk _ d _ _ _ _ _ _ _ => d

/-- Source `FieldInfo.default_factory`, modelled by the value the factory returns
(`none` when there is no factory; a factory object is always truthy). -/
def PyFieldInfo.default_factory : PyFieldInfo → Option PyVal
  | .mk _ _ f _ _ _ _ _ _ => f

/-- Source `FieldInfo.description`. -/
def PyFieldInfo.description : PyFieldInfo → Option String
  | .mk _ _ _ d _ _ _ _ _ => d

/-- Source `FieldInfo.examples or []`. -/
def PyFieldInfo.examples : PyFieldInfo → List PyVal
  | .mk _ _ _ _ e _ _ _ _ => e

/-- Source `FieldInfo.alias`. -/
def PyFieldInfo.fieldAlias : PyFieldInfo → Option String
  | .mk _ _ _ _ _ a _ _ _ => a

/-- Source `FieldInfo.validation_alias`. -/
def PyFieldInfo.validation_alias : PyFieldInfo → Option ValAlias
  | .mk _ _ _ _ _ _ v _ _ => v

/-- Source `bool(FieldInfo.deprecated or False)`. -/
def PyFieldInfo.deprecated : PyFieldInfo → Bool
  | .mk _ _ _ _ _ _ _ d _ => d

/-- Source `FieldInfo.exclude` truthiness. -/
def PyFieldInfo.exclude : PyFieldInfo → Bool
  | .mk _ _ _ _ _ _ _ _ e => e

/-- Source `constants.py` `FIELD_TYPE_MAP.get(annotation, annotation.__name__ if
annotation else "any")`, where the argument is a class object or the `None`
object (`none` here). The map has the `None` object as a key (mapped to
`"null"`), but not the `NoneType` class, which therefore falls back to its
`__name__`. -/
def fieldTypeMapGet : Option PyClass → String
  | none => "null"
  | some .pstr => "string"
  | some .psecret => "string"
  | some .pint => "integer"
  | some .pfloat => "number"
  | some .pbool => "boolean"
  | some .plist => "array"
  | some .pdict => "object"
  | some .pNoneType => "NoneType"
  | some (.puser n) => n
  | some (.pmodel m) => m.clsName

mutual
/-- Source `models.py` `get_type_by_annotation(annotation, remove_none=True)`.
Case notes, matching the source lines:
* a plain class or a parameterized generic: the final
  `FIELD_TYPE_MAP.get(annotation, ...)` line on the class / the origin
  (the `remove_none` filter touches only the `None` object, which occurs
  among `get_args` results only for `Literal`; `filter(bool, args)` keeps
  class objects, which are always truthy);
* a union: recurse over the alternatives (always with the default
  `remove_none=True`) and concatenate; an argument-less union sets
  `annotation = None`, and `FIELD_TYPE_MAP.get(None)` is `"null"`;
* a `Literal`: `json.dumps` each argument, after the `remove_none` filter
  dropped `None` arguments;
* a `ForwardRef`: `__forward_value__ or __forward_arg__`. -/
def get_type_by_annot (remove_none : Bool) : TypeExpr → List String
  | .cls c => [fieldTypeMapGet (some c)]
  | .generic origin _ => [fieldTypeMapGet (some origin)]
  | .unionT args =>
    if args.isEmpty then [fieldTypeMapGet none]
    else typesOfList args
  | .litT vals =>
    (if remove_none then vals.filter (fun v => v != .lnone) else vals).map litJson
  | .fwdRef arg value => [pyOrS (value.getD "") arg]

/-- The list comprehension `[t for arg in args for t in get_type_by_annotation(arg)]`. -/
def typesOfList : List TypeExpr → List String
  | [] => []
  | a :: as_ => get_type_by_annot true a ++ typesOfList as_
end

/-! ## Field descriptors (`models.py`: `FieldInfoModel`) -/

/-- Source `models.py` `FieldInfoModel`: the normalized descriptor of one field. -/
structure FieldInfoModel where
  name : String
  types : List String
  dflt : Option String := none       -- source field name: `default`
  description : Option String := none
  examples : List String := []
  aliases : List String := []
  deprecated : Bool := false
deriving Repr, DecidableEq

/-- Source `FieldInfoModel.full_name`: the first alias, or else the name. -/
def FieldInfoModel.full_name (f : FieldInfoModel) : String :=
  match f.aliases with
  | a :: _ => a
  | [] => f.name

/-- Source `FieldInfoModel.is_required`: `self.default is None`. -/
def FieldInfoModel.is_required (f : FieldInfoModel) : Bool :=
  f.dflt.isNone

/-- Python `self.examples != [self.default]` negated: whether the examples
list equals the one-element list holding the default. When the default is
`None`, a list of strings never equals `[None]`. -/
def FieldInfoModel.examplesEqDefault (f : FieldInfoModel) : Bool :=
  match f.dflt with
  | some d => f.examples == [d]
  | none => false

/-- Source `FieldInfoModel.has_examples`: `bool(self.examples and self.examples != [self.default])`. -/
def FieldInfoModel.has_examples (f : FieldInfoModel) : Bool :=
  !f.examples.isEmpty && !f.examplesEqDefault

/-- Source `models.py` `FieldInfoModel.create_default(field, global_settings)`:
prefer the explicit default; else the default factory result; absent both,
`None`. A set default is sorted into a list; a `Path` default goes through
`default_path`; the final value is serialized with `value_to_jsonable`,
modelled here by the total `serialize` oracle (the success-or-fallback result;
the case in which `value_to_jsonable` itself raises is the subject of the
claim about `value_to_jsonable` and produces no descriptor at all). -/
def create_default (homeDir : PyPath) (serialize : PyVal → String)
    (gs : Option PSESettings) (f : PyFieldInfo) : Option String :=
  let d : Option PyVal :=
    match f.dflt with
    | none => f.default_factory
    | some v => some v
  match d with
  | none => none
  | some v =>
    let v1 : PyVal := match v with
      | .vset xs => .vlist (pySortVals xs)
      | v0 => v0
    let v2 : PyVal := match v1 with
      | .vpath p => .vpath (default_path homeDir p gs)
      | v0 => v0
    some (serialize v2)

/-- Source `models.py` `FieldInfoModel.from_settings_field(name, field, global_settings)`. -/
def from_settings_field (homeDir : PyPath) (serialize : PyVal → String)
    (gs : Option PSESettings) (name : String) (f : PyFieldInfo) : FieldInfoModel :=
  let types := get_type_by_annot true f.ann
  let dflt := create_default homeDir serialize gs f
  -- `field.description or None`
  let description := if pyTruthyOptStr f.description then f.description else none
  -- `[_prepare_example(example, field.annotation) for example in (field.examples or [])]`
  let examples0 := f.examples.map (fun e => serialize (prepareExampleVal e))
  -- `if not examples and default: examples = [default]`
  let examples := if examples0.isEmpty && pyTruthyOptStr dflt then [dflt.getD ""] else examples0
  -- `if field.alias: aliases = [field.alias]`
  let aliases0 := if pyTruthyOptStr f.fieldAlias then [f.fieldAlias.getD ""] else []
  -- `if validation_alias:` (an empty alias string is falsy; `AliasChoices` and
  -- `AliasPath` objects are always truthy)
  let aliases :=
    match f.validation_alias with
    | none => aliases0
    | some (.va_str s) => if s != "" then aliases0 ++ [s] else aliases0
    | some (.va_choices items) => aliases0 ++ items.map aliasPathToStr
    | some (.va_path items) => [String.intercalate "." items]
  { name := name, types := types, dflt := dflt, description := description,
    examples := examples, aliases := aliases, deprecated := f.deprecated }

/-! ## Settings descriptors (`models.py`: `SettingsInfoModel`) -/

/-- Source `models.py` `SettingsInfoModel`: the descriptor tree of one settings
model. `envPfx` is the source field `env_prefix`. -/
inductive SettingsInfoModel where
  | mk (name : String) (docs : String) (envPfx : String)
      (fields : List FieldInfoModel) (child_settings : List SettingsInfoModel)

def SettingsInfoModel.name : SettingsInfoModel → String
  | .mk n _ _ _ _ => n

def SettingsInfoModel.docs : SettingsInfoModel → String
  | .mk _ d _ _ _ => d

def SettingsInfoModel.envPfx : SettingsInfoModel → String
  | .mk _ _ p _ _ => p

def SettingsInfoModel.fieldList : SettingsInfoModel → List FieldInfoModel
  | .mk _ _ _ fs _ => fs

def SettingsInfoModel.child_settings : SettingsInfoModel → List SettingsInfoModel
  | .mk _ _ _ _ cs => cs

/-- The same descriptor with its children removed (a helper for stating which
renderers ignore `child_settings`). -/
def SettingsInfoModel.dropChildren : SettingsInfoModel → SettingsInfoModel
  | .mk n d p fs _ => .mk n d p fs []

/-- Modelled constant: the docstring of `pydantic_settings.BaseSettings`
(external library text; its exact value is irrelevant to every claim, only the
comparison against it in `from_settings_model` matters). -/
def BASE_SETTINGS_DOCS : String :=
  "Base class for settings, allowing values to be overridden by environment variables."

/-- Modelled constant: the docstring of `pydantic.BaseModel` (external library
text, as above). -/
def BASE_MODEL_DOCS : String :=
  "!!! abstract \"Usage Documentation\""

/-- Python `global_settings and global_settings.respect_exclude`. -/
def respectExclude : Option PSESettings → Bool
  | some g => g.respect_exclude
  | none => false

mutual
/-- Source `models.py` `SettingsInfoModel.from_settings_model(settings,
global_settings, prefix="", nested_delimiter="_")`. For a `BaseSettings`
subclass the effective prefix is `prefix or model_config.get("env_prefix",
"")` and the delimiter is `model_config.get("env_nested_delimiter", "_") or
"_"`; for a plain `BaseModel` the caller-supplied values are kept. Fields are
walked in declaration order by `fieldsWalk`. -/
def from_settings_model (homeDir : PyPath) (serialize : PyVal → String)
    (gs : Option PSESettings) (pfx nestedDelim : String) :
    PySettingsModel → SettingsInfoModel
  | .mk clsName isSettings config doc flds =>
    let pfx2 := if isSettings then pyOrS pfx (config.env_pfx.getD "") else pfx
    let nd2 :=
      if isSettings then
        match config.env_nested_delimiter with
        | some s => pyOrS s "_"
        | none => "_"
      else nestedDelim
    let walked := fieldsWalk homeDir serialize gs pfx2 nd2 flds
    -- docstring cleanup: drop base-class boilerplate, truncate at form feed
    let docs0 := doc.getD ""
    let docs1 :=
      if pyStrip docs0 = BASE_SETTINGS_DOCS || pyStrip docs0 = BASE_MODEL_DOCS then ""
      else docs0
    let docs2 := pyStrip (pySplitFormFeedHead docs1)
    -- `conf.get("title", None) or getattr(settings, "__name__", None) or ...`
    let nm := pyOrS (config.title.getD "") clsName
    .mk nm docs2 pfx2 walked.1 walked.2

/-- The field loop of `from_settings_model`: skip excluded fields when the
global policy says so; an annotation that is (after the `GenericAlias`
unwrapping) a `BaseModel`/`BaseSettings` subclass becomes a child descriptor
built with prefix `f"{prefix}{name}{nested_delimiter}".upper()`; every other
field goes through `from_settings_field`. -/
def fieldsWalk (homeDir : PyPath) (serialize : PyVal → String)
    (gs : Option PSESettings) (pfx nestedDelim : String) :
    List (String × PyFieldInfo) →
    List FieldInfoModel × List SettingsInfoModel
  | [] => ([], [])
  | (name, .mk ann dflt dfac desc exs al va dep excl) :: rest =>
    let r := fieldsWalk homeDir serialize gs pfx nestedDelim rest
    if respectExclude gs && excl then r
    else
      match ann with
      | .cls (.pmodel child) =>
        (r.1,
         from_settings_model homeDir serialize gs
           (pyUpper (pfx ++ name ++ nestedDelim)) nestedDelim child :: r.2)
      | .generic (.pmodel child) _ =>
        -- `isinstance(annotation, GenericAlias)` unwraps to `__origin__`
        -- before the `issubclass` check
        (r.1,
         from_settings_model homeDir serialize gs
           (pyUpper (pfx ++ name ++ nestedDelim)) nestedDelim child :: r.2)
      | a =>
        (from_settings_field homeDir serialize gs name
           (.mk a dflt dfac desc exs al va dep excl) :: r.1, r.2)
end

/-! ## DotEnv renderer (`generators/dotenv.py`) -/

/-- Source `DotEnvMode`: the `.env` generation mode. -/
inductive DotEnvMode where
  | all
  | onlyOptional
  | onlyRequired
deriving Repr, DecidableEq

/-- Source `dotenv.py` `DOTENV_MODE_MAP`: mode to `(is_optional, is_required)`. -/
def DOTENV_MODE_MAP : DotEnvMode → Bool × Bool
  | .all => (true, true)
  | .onlyOptional => (true, false)
  | .onlyRequired => (false, true)

/-- Source `dotenv.py` `DotEnvSettings` (the generator configuration): `enabled` and
`paths` come from `BaseGeneratorSettings`; `name` is the deprecated single
output path. -/
structure DotEnvSettings where
  enabled : Bool := true
  name : Option PyPath := none
  paths : List PyPath := []
  split_by_group : Bool := true
  add_examples : Bool := true
  mode : DotEnvMode := .all
deriving Repr, DecidableEq

/-- Source `dotenv.py` `DotEnvSettings.validate_paths` (a pydantic `model_validator`
run after construction): `if self.name: self.paths = [self.name]`. A
`pathlib.Path` object is always truthy (it defines neither `__bool__` nor
`__len__`), so any non-`None` `name` replaces `paths`. -/
def DotEnvSettings.validate_paths (s : DotEnvSettings) : DotEnvSettings :=
  match s.name with
  | some n => { s with paths := [n] }
  | none => s

/-- Source `dotenv.py` `DotEnvGenerator._process_field(settings_info, field,
is_optional, is_required)`: the environment-variable name is
`f"{env_prefix}{field.name.upper()}"`, replaced by `aliases[0].upper()` when
aliases exist; a required field is skipped (`None`) when `is_required` is off;
an optional field is rendered commented out with its default when
`is_optional` is on; examples are appended as an inline comment when present,
different from `[default]`, and `add_examples` is on. -/
def process_field (cfg : DotEnvSettings) (si : SettingsInfoModel)
    (f : FieldInfoModel) (isOptional isRequired : Bool) : Option String :=
  let fieldName :=
    match f.aliases with
    | a :: _ => pyUpper a
    | [] => SettingsInfoModel.envPfx si ++ pyUpper f.name
  if f.is_required && !isRequired then none
  else
    let fs1 :=
      if !f.is_required && isOptional then
        "# " ++ fieldName ++ "=" ++ f.dflt.getD "None"
      else fieldName ++ "="
    let fs2 :=
      if !f.examples.isEmpty && !f.examplesEqDefault && cfg.add_examples then
        fs1 ++ "  # " ++ String.intercalate ", " f.examples
      else fs1
    some fs2

/-- The field loop of `DotEnvGenerator.generate_single`: the lines the loop
appends (each later followed by `"\n"`), in order. `if not field_string:
continue` skips both `None` and the empty string. -/
def dotenvFieldLines (cfg : DotEnvSettings) (si : SettingsInfoModel)
    (isOptional isRequired : Bool) (fields : List FieldInfoModel) : List String :=
  fields.filterMap (fun f =>
    match process_field cfg si f isOptional isRequired with
    | some s => if s = "" then none else some s
    | none => none)

/-- The node-local part of `DotEnvGenerator.generate_single`: the optional
`### {name}` group header, the field lines, then `result.strip() + "\n"` and
the extra blank line in grouped mode. (The `has_content` flag of the source
only drives a warning and does not change the returned string.) -/
def dotenvNodeText (cfg : DotEnvSettings) (si : SettingsInfoModel) : String :=
  let iorr := DOTENV_MODE_MAP cfg.mode
  let base := if cfg.split_by_group then "### " ++ si.name ++ "\n\n" else ""
  let lines := dotenvFieldLines cfg si iorr.1 iorr.2 si.fieldList
  let r := base ++ String.join (lines.map (fun l => l ++ "\n"))
  let r2 := pyStrip r ++ "\n"
  if cfg.split_by_group then r2 ++ "\n" else r2

mutual
/-- Source `dotenv.py` `DotEnvGenerator.generate_single(settings_info, level=1)`:
the node text, then `"".join(r for r in child_results if r.strip())` where
`child_results = [self.generate_single(child) for child in
settings_info.child_settings]` — note the recursive call passes no `level`
argument, so every child is rendered at the default level `1`; the `level`
parameter is not used in the body at all. -/
def dotenvGenerateSingle (cfg : DotEnvSettings) :
    SettingsInfoModel → Nat → String
  | si@(.mk _ _ _ _ children), _level =>
    dotenvNodeText cfg si ++
      String.join ((dotenvChildList cfg children).filter (fun r => pyStrip r != ""))

/-- Source `[self.generate_single(child) for child in settings_info.child_settings]`
(each call at the default `level=1`). -/
def dotenvChildList (cfg : DotEnvSettings) : List SettingsInfoModel → List String
  | [] => []
  | c :: cs => dotenvGenerateSingle cfg c 1 :: dotenvChildList cfg cs
end

/-! ## Markdown table helpers (`utils.py`) -/

/-- Source `utils.py` `q(s)`: wrap in backticks. -/
def q (s : String) : String := "`" ++ s ++ "`"

/-- Scan with one character of lookbehind (helper for `escapePipes`). -/
def escapePipesAux : Option Char → List Char → List Char
  | _, [] => []
  | prev, c :: cs =>
    if c == '|' && prev != some '\\' then
      '\\' :: '|' :: escapePipesAux (some c) cs
    else
      c :: escapePipesAux (some c) cs

/-- Source `MARKDOWN_PIPE_RE.sub` with pattern `(?<!\\\\)\\|` and replacement
`\\\\|`: escape each `|` that is not already preceded by a backslash. -/
def escapePipes (s : String) : String :=
  String.mk (escapePipesAux none s.data)

/-- The column-size loop of `make_pretty_md_table`:
`col_sizes[i] = max(col_sizes[i], len(cell))` for each cell of a row. -/
def updateSizes : List Nat → List String → List Nat
  | [], _ => []
  | sizes, [] => sizes
  | sz :: szs, c :: cs => max sz c.length :: updateSizes szs cs

/-- Source `utils.py` `make_pretty_md_table(headers, rows)`: escape pipes, compute
column widths (at least the header width), then emit the padded header row, the
dash separator row and one padded row per entry. Cells are strings here because
`make_pretty_md_table_from_dict` always substitutes `""` for missing values. -/
def make_pretty_md_table (headers : List String) (rows : List (List String)) : String :=
  let rows2 := rows.map (fun row => row.map escapePipes)
  let colSizes := rows2.foldl updateSizes (headers.map String.length)
  let headerLine :=
    "|" ++ String.join ((headers.zip colSizes).map
      (fun hc => " " ++ hc.1 ++ charRun ' ' (hc.2 - hc.1.length) ++ " |"))
  let sepLine :=
    "|" ++ String.join ((headers.zip colSizes).map
      (fun hc => charRun '-' (hc.2 + 2) ++ "|"))
  let rowLine := fun (row : List String) =>
    "\n|" ++ String.join ((row.zip colSizes).map
      (fun cc => " " ++ cc.1 ++ charRun ' ' (cc.2 - cc.1.length) ++ " |"))
  headerLine ++ "\n" ++ sepLine ++ String.join (rows2.map rowLine)

/-! ## Markdown renderer (`generators/markdown.py`) -/

/-- Source `markdown.py` `TableRowDict`: one table row keyed by header name. -/
structure TableRowDict where
  rName : String
  rType : String
  rDefault : String
  rDescription : String
  rExample : Option String
deriving Repr, DecidableEq

/-- Source `row.get(key, None)` on a `TableRowDict`. -/
def TableRowDict.get (r : TableRowDict) : String → Option String
  | "Name" => some r.rName
  | "Type" => some r.rType
  | "Default" => some r.rDefault
  | "Description" => some r.rDescription
  | "Example" => r.rExample
  | _ => none

/-- The keys of `TableRowDict`, in declaration order. -/
def tableRowKeys : List String := ["Name", "Type", "Default", "Description", "Example"]

/-- Source `utils.py` `make_pretty_md_table_from_dict(data, headers=None)`: when no
headers are given (`None` or an empty list are both falsy) they are the union
of the row keys in order; each cell is `row.get(key, None) or ""`. -/
def make_pretty_md_table_from_dict (data : List TableRowDict) (headers : List String) : String :=
  let hs := if headers.isEmpty then (if data.isEmpty then [] else tableRowKeys) else headers
  let rows := data.map (fun r => hs.map (fun k =>
    match TableRowDict.get r k with
    | some s => s
    | none => ""))
  make_pretty_md_table hs rows

/-- Source `markdown.py` `table_only`: `bool` or the literal `"with-header"`. -/
inductive TableOnlyOpt where
  | boolOpt (b : Bool)
  | withHeader
deriving Repr, DecidableEq

/-- Python truthiness of the `table_only` value (`False` is the only falsy one). -/
def TableOnlyOpt.truthy : TableOnlyOpt → Bool
  | .boolOpt b => b
  | .withHeader => true

/-- Source `markdown.py` `MarkdownSettings`, restricted to the options
`generate_single` and `_make_table` read. `filePfx` is the source field
`file_prefix` (used only by `generate`, kept for completeness). -/
structure MarkdownSettings where
  enabled : Bool := true
  paths : List PyPath := []
  filePfx : String :=
    "# Configuration\n\nHere you can find all available configuration options using ENV variables.\n\n"
  to_upper_case : Bool := true
  table_headers : List String := tableRowKeys
  table_only : TableOnlyOpt := .boolOpt false
deriving Repr, DecidableEq

/-- Source `markdown.py` `UNION_SEPARATOR`. -/
def UNION_SEPARATOR : String := " | "

/-- Source `markdown.py` `_make_table_row(settings_info, field, md_settings)`. -/
def make_table_row (si : SettingsInfoModel) (f : FieldInfoModel)
    (cfg : MarkdownSettings) : TableRowDict :=
  let name0 := q (SettingsInfoModel.envPfx si ++ f.name)
  let name1 :=
    match f.aliases with
    | [] => name0
    | as_ => String.intercalate UNION_SEPARATOR (as_.map q)
  let name2 := if cfg.to_upper_case then pyUpper name1 else name1
  let name3 := if f.deprecated then name2 ++ " (⚠️ Deprecated)" else name2
  let dflt := if !f.is_required then q (f.dflt.getD "None") else "*required*"
  let ex : Option String :=
    if !f.examples.isEmpty then some (String.intercalate ", " (f.examples.map q)) else none
  let types := String.intercalate UNION_SEPARATOR (f.types.map q)
  { rName := name3, rType := types, rDefault := dflt,
    rDescription := f.description.getD "", rExample := ex }

/-- Source `MarkdownGenerator._make_table(rows)`. -/
def md_make_table (cfg : MarkdownSettings) (rows : List TableRowDict) : String :=
  make_pretty_md_table_from_dict rows cfg.table_headers

/-- The node-local part of `MarkdownGenerator.generate_single`: unless
`table_only` is truthy, the `#`-heading at depth `level` with the `rstrip`-ed
docstring and the optional environment-prefix line; then the field table when
there are rows. -/
def mdNodeText (cfg : MarkdownSettings) (si : SettingsInfoModel) (level : Nat) : String :=
  let head :=
    if cfg.table_only.truthy then ""
    else
      let docs := pyRstrip ("\n\n" ++ si.docs)
      let r := charRun '#' level ++ " " ++ si.name ++ docs ++ "\n\n"
      if SettingsInfoModel.envPfx si != "" then
        r ++ "**Environment Prefix**: `" ++ SettingsInfoModel.envPfx si ++ "`\n\n"
      else r
  let rows := si.fieldList.map (fun f => make_table_row si f cfg)
  if !rows.isEmpty then head ++ md_make_table cfg rows ++ "\n\n" else head

mutual
/-- Source `markdown.py` `MarkdownGenerator.generate_single(settings_info, level=1)`:
the node text, then `"\n\n".join(self.generate_single(child, level +
1).strip() for child in settings_info.child_settings)` — each child is
rendered at `level + 1`. -/
def mdGenerateSingle (cfg : MarkdownSettings) : SettingsInfoModel → Nat → String
  | si@(.mk _ _ _ _ children), level =>
    mdNodeText cfg si level ++
      String.intercalate "\n\n" (mdChildList cfg (level + 1) children)

/-- Source `[self.generate_single(child, level + 1).strip() for child in children]`. -/
def mdChildList (cfg : MarkdownSettings) (lvl : Nat) : List SettingsInfoModel → List String
  | [] => []
  | c :: cs => pyStrip (mdGenerateSingle cfg c lvl) :: mdChildList cfg lvl cs
end

/-! ## Simple renderer (`generators/simple.py`) -/

/-- Source `simple.py` `SimpleGenerator.generate_single(settings_info, level=1)`:
indentation `"  " * (level - 1)`, a name header with an `=` underline, the
optional environment-prefix line, the optional docs, then one entry per field
(backticked full name with deprecation marker, the `str` of the type list, a
dash underline, then description, default and examples when truthy). The body
never touches `settings_info.child_settings`. -/
def simpleGenerateSingle (si : SettingsInfoModel) (level : Nat) : String :=
  let indent := String.join (List.replicate (level - 1) "  ")
  let docs := pyRstrip si.docs
  let headerLine := charRun '=' si.name.length
  let r0 := indent ++ si.name ++ "\n" ++ indent ++ headerLine ++ "\n"
  let r1 :=
    if SettingsInfoModel.envPfx si != "" then
      r0 ++ "\n" ++ indent ++ "Environment Prefix: " ++ SettingsInfoModel.envPfx si ++ "\n"
    else r0
  let r2 := if docs != "" then r1 ++ "\n" ++ indent ++ docs ++ "\n" else r1
  si.fieldList.foldl (fun acc f =>
    let fieldName0 := "`" ++ f.full_name ++ "`"
    let fieldName := if f.deprecated then fieldName0 ++ " (⚠️ Deprecated)" else fieldName0
    let h := fieldName ++ ": " ++ pyReprStrList f.types
    let a1 := acc ++ "\n" ++ h ++ "\n" ++ charRun '-' h.length ++ "\n"
    let a2 :=
      if pyTruthyOptStr f.description then
        a1 ++ "\n" ++ f.description.getD "" ++ "\n\n"
      else a1
    let a3 :=
      if pyTruthyOptStr f.dflt then a2 ++ "Default: " ++ f.dflt.getD "" ++ "\n" else a2
    if f.has_examples then
      a3 ++ "Examples: " ++ String.intercalate ", " f.examples ++ "\n"
    else a3) r2

/-! ## File systems and the shared `run` (`generators/abstract.py`,
`exporter.py`)

A file system is a map from paths to optional contents (`none` when
`path.is_file()` is false). -/

/-- Source `path.write_text(t)` on the file-system map. -/
def pyWrite (fs : PyPath → Option String) (p : PyPath) (t : String) :
    PyPath → Option String :=
  fun x => if x = p then some t else fs x

/-- The write loop of `abstract.py` `AbstractGenerator.run`: for each path, if
the file exists with exactly the generated text it is skipped; otherwise the
text is written (`mkdir` has no observable effect on the map) and the path is
recorded. Returns the recorded paths in order and the final file system. -/
def runWrites (text : String) :
    List PyPath → (PyPath → Option String) →
    List PyPath × (PyPath → Option String)
  | [], fs => ([], fs)
  | p :: ps, fs =>
    if fs p = some text then runWrites text ps fs
    else
      let rest := runWrites text (ps) (pyWrite fs p text)
      (p :: rest.1, rest.2)

/-- One renderer as `run` sees it: its `generate` function over the descriptor
list, and the data `file_paths` reads (the settings `root_dir`, the config
`enabled` flag and `paths` list). -/
structure GeneratorModel where
  gen : List SettingsInfoModel → String
  root_dir : PyPath
  enabled : Bool
  cfgPaths : List PyPath

/-- Source `abstract.py` `AbstractGenerator.file_paths`: empty when the config is
falsy (`enabled and bool(paths)`); otherwise each configured path, kept as-is
when absolute and joined onto `root_dir` otherwise. -/
def GeneratorModel.filePaths (g : GeneratorModel) : List PyPath :=
  if !(g.enabled && !g.cfgPaths.isEmpty) then []
  else g.cfgPaths.map (fun p => if p.is_absolute then p else g.root_dir.joinPath p)

/-- Source `abstract.py` `AbstractGenerator.run(*settings_info)`: compute the text
once, then run the write loop over `file_paths()`. -/
def GeneratorModel.run (g : GeneratorModel) (infos : List SettingsInfoModel)
    (fs : PyPath → Option String) :
    List PyPath × (PyPath → Option String) :=
  runWrites (g.gen infos) g.filePaths fs

/-- Source `exporter.py` `Exporter.run_all`: invoke every generator in order on the
same descriptor list, threading the file system, and concatenate the
written-path lists. -/
def run_all : List GeneratorModel → List SettingsInfoModel →
    (PyPath → Option String) →
    List PyPath × (PyPath → Option String)
  | [], _, fs => ([], fs)
  | g :: gens, infos, fs =>
    let r := g.run infos fs
    let rest := run_all gens infos r.2
    (r.1 ++ rest.1, rest.2)

/-! ## Markdown region mode (`markdown.py`: `_process_region`, `run`)

`text_region_parser.RegionConstructor.parse_content` is external; it is
modelled as an opaque `parseContent : String → String` argument. -/

/-- The message of the `FileNotFoundError` raised by `_process_region`. -/
def fileNotFoundMsg (p : PyPath) : String :=
  "The file " ++ pathStr p ++ " does not exist. " ++
    "Please create this file before running the generator with the `region` option."

/-- The message of the wrapping `OSError` raised by the `except OSError`
clause of `_process_region` (a `FileNotFoundError` is itself an `OSError`, so
the missing-file error raised inside the `try` block is caught there and
re-raised wrapped). -/
def wrapOSErrorMsg (p : PyPath) (inner : String) : String :=
  "Failed to process region in " ++ pathStr p ++ ": " ++ inner

/-- Source `markdown.py` `MarkdownGenerator._process_region(path, constructor)`:
raises (models as `.error`) when the file does not exist; otherwise parses the
content and writes it back only when it changed, returning whether a write
happened. -/
def processRegion (parseContent : String → String) (fs : PyPath → Option String)
    (p : PyPath) : Except String (Bool × (PyPath → Option String)) :=
  match fs p with
  | none => .error (wrapOSErrorMsg p (fileNotFoundMsg p))
  | some content =>
    let newContent := parseContent content
    if newContent = content then .ok (false, fs)
    else .ok (true, pyWrite fs p newContent)

/-- The path loop of `markdown.py` `MarkdownGenerator.run` in region mode:
each path goes through `_process_region`; an `OSError`/`FileNotFoundError` is
caught, turned into a warning (collected in the second component) and the loop
continues; updated paths are collected in order; the loop never raises.
Returns `(updated_files, warnings, fs)`. -/
def markdownRunRegion (parseContent : String → String) :
    List PyPath → (PyPath → Option String) →
    List PyPath × List String × (PyPath → Option String)
  | [], fs => ([], [], fs)
  | p :: ps, fs =>
    match processRegion parseContent fs p with
    | .error e =>
      let rest := markdownRunRegion parseContent ps fs
      (rest.1, e :: rest.2.1, rest.2.2)
    | .ok (updated, fs2) =>
      let rest := markdownRunRegion parseContent ps fs2
      (if updated then p :: rest.1 else rest.1, rest.2.1, rest.2.2)

/-! ## Renderer registration (`generators/abstract.py`:
`AbstractGenerator.__init_subclass__`) -/

/-- A renderer class as the registry sees it: an identity, the `name` class
attribute (`none` models `getattr(cls, "name", None)` finding nothing) and
whether a `config` class attribute of class type is present. -/
structure GeneratorCls where
  clsId : Nat
  name : Option String
  hasConfig : Bool
deriving Repr, DecidableEq

/-- Python `==` between a `str` and a class object: `str.__eq__` returns
`NotImplemented` and the default class equality is identity, so the comparison
is always `False`. -/
def pyStrEqClass (_s : String) (_c : GeneratorCls) : Bool := false

/-- Python `s in list_of_classes`: membership via `==` against every element. -/
def pyStrInClassList (s : String) (l : List GeneratorCls) : Bool :=
  l.any (fun c => pyStrEqClass s c)

/-- Source `abstract.py` `AbstractGenerator.__init_subclass__`: reject a subclass
without a truthy `name` or without a `config` class; then the source checks
`cls.name in AbstractGenerator.ALL_GENERATORS` — a string against the list of
registered class objects — before appending the class to the registry. -/
def initSubclass (registry : List GeneratorCls) (c : GeneratorCls) :
    Except String (List GeneratorCls) :=
  if !pyTruthyOptStr c.name then .error "Generator must have a name"
  else if !c.hasConfig then .error "Generator must have a config"
  else if pyStrInClassList (c.name.getD "") registry then
    .error ("Generator " ++ c.name.getD "" ++ " already exists")
  else .ok (registry ++ [c])

/-! ## Concrete instances used by the claim checks -/

/-- A required field `A` (no default, hence no extracted examples). -/
def fieldA : FieldInfoModel := { name := "A", types := ["string"] }

/-- An optional field `B` with default `1` (extraction copies the default into
`examples` when no explicit examples exist). -/
def fieldB : FieldInfoModel :=
  { name := "B", types := ["integer"], dflt := some "1", examples := ["1"] }

/-- A flat settings descriptor with exactly the fields `A` and `B`. -/
def infoAB : SettingsInfoModel := .mk "Settings" "" "" [fieldA, fieldB] []

/-- A dotenv configuration with the given mode and no group headers. -/
def dotenvCfg (m : DotEnvMode) : DotEnvSettings :=
  { split_by_group := false, mode := m }

/-- A leaf child descriptor with one field. -/
def childInfo : SettingsInfoModel :=
  .mk "Child" "" "" [{ name := "x", types := ["string"] }] []

/-- A parent descriptor whose only content is the child above. -/
def parentInfo : SettingsInfoModel := .mk "Parent" "" "" [] [childInfo]

/-- The same parent with no children. -/
def parentNoChildInfo : SettingsInfoModel := .mk "Parent" "" "" [] []

/-- A concrete renderer: writes `"NAME=\n"` to the relative path
`.env.example` under the root `/repo`. -/
def g0 : GeneratorModel :=
  { gen := fun _ => "NAME=\n", root_dir := ⟨true, ["repo"]⟩,
    enabled := true, cfgPaths := [⟨false, [".env.example"]⟩] }

/-- A file system on which `g0` is already up to date. -/
def fs0 : PyPath → Option String :=
  fun p => if p = ⟨true, ["repo", ".env.example"]⟩ then some "NAME=\n" else none

/-- A `BaseSettings` parent class with declared `env_prefix="APP_"` and
`env_nested_delimiter="_"` and a single nested-model field named `db` whose
annotation is the given child model class. -/
def parentModelOf (child : PySettingsModel) : PySettingsModel :=
  .mk "Parent" true { title := none, env_pfx := some "APP_", env_nested_delimiter := some "_" }
    none
    [("db", .mk (.cls (.pmodel child)) none none none [] none none false false)]

/-! ## Helper lemmas -/

/-- Source `is_required` of any field descriptor is exactly "the default is absent". -/
theorem FieldInfoModel.is_required_iff (f : FieldInfoModel) :
    f.is_required = true ↔ f.dflt = none := by
  simp [FieldInfoModel.is_required, Option.isNone_iff_eq_none]

/-- The write loop writes nothing when every target already holds the text. -/
theorem runWrites_upToDate (text : String) (paths : List PyPath)
    (fs : PyPath → Option String) (h : ∀ p ∈ paths, fs p = some text) :
    runWrites text paths fs = ([], fs) := by
  induction paths with
  | nil => rfl
  | cons p ps ih =>
    have hp : fs p = some text := h p (List.mem_cons_self p ps)
    have ih2 := ih (fun x hx => h x (List.mem_cons_of_mem p hx))
    simp [runWrites, hp, ih2]

/-- Source `run_all` writes nothing when every generator is already up to date. -/
theorem run_all_upToDate (gens : List GeneratorModel) (infos : List SettingsInfoModel)
    (fs : PyPath → Option String)
    (h : ∀ g ∈ gens, ∀ p ∈ g.filePaths, fs p = some (g.gen infos)) :
    run_all gens infos fs = ([], fs) := by
  induction gens with
  | nil => rfl
  | cons g gens ih =>
    have h1 : g.run infos fs = ([], fs) :=
      runWrites_upToDate _ _ _ (h g (List.mem_cons_self g gens))
    have ih2 := ih (fun x hx => h x (List.mem_cons_of_mem g hx))
    simp [run_all, h1, ih2]

/-- The child list the Markdown renderer builds is the mapped-and-stripped
recursion over `child_settings`. -/
theorem mdChildList_eq_map (cfg : MarkdownSettings) (lvl : Nat)
    (l : List SettingsInfoModel) :
    mdChildList cfg lvl l = l.map (fun c => pyStrip (mdGenerateSingle cfg c lvl)) := by
  induction l with
  | nil => simp [mdChildList]
  | cons c cs ih => simp [mdChildList, ih]

/-- The child list the dotenv renderer builds is the mapped recursion over
`child_settings`, always at level 1. -/
theorem dotenvChildList_eq_map (cfg : DotEnvSettings) (l : List SettingsInfoModel) :
    dotenvChildList cfg l = l.map (fun c => dotenvGenerateSingle cfg c 1) := by
  induction l with
  | nil => simp [dotenvChildList]
  | cons c cs ih => simp [dotenvChildList, ih]

/-- Source `from_settings_model` keeps a non-empty caller-supplied prefix as the
effective prefix (`prefix or model_config.get("env_prefix", "")`). -/
theorem from_settings_model_envPfx (homeDir : PyPath) (ser : PyVal → String)
    (gs : Option PSESettings) (pfx nd : String) (m : PySettingsModel)
    (h : pfx ≠ "") :
    SettingsInfoModel.envPfx (from_settings_model homeDir ser gs pfx nd m) = pfx := by
  cases m with
  | mk clsName isSettings config doc flds =>
    cases isSettings <;>
      simp [from_settings_model, SettingsInfoModel.envPfx, pyOrS, h]

/-! ## Claim theorems -/

/-- Claim C1. Dotenv mode filtering, evaluated on a model with one required
field `A` and one optional field `B` with default `1`: mode `all` emits
`A=` and `# B=1` and mode `only-optional` emits exactly `# B=1`, as the claim
states; but under mode `only-required` the code does NOT omit `B` — the
`_process_field` skip applies only to required fields when `is_required` is
off, so the optional field `B` falls through to the uncommented branch and the
output is `A=` followed by `B=`, contradicting the claim (and the mode
documentation in the source, which says only required variables are
included). -/
theorem dotenv_mode_only_required_includes_optional :
    process_field (dotenvCfg .onlyRequired) infoAB fieldB false true = some "B=" ∧
    dotenvGenerateSingle (dotenvCfg .onlyRequired) infoAB 1 = "A=\nB=\n" ∧
    dotenvGenerateSingle (dotenvCfg .all) infoAB 1 = "A=\n# B=1\n" ∧
    dotenvGenerateSingle (dotenvCfg .onlyOptional) infoAB 1 = "# B=1\n" := by
  refine ⟨by decide, ?_, ?_, ?_⟩ <;>
    · simp only [infoAB, dotenvGenerateSingle, dotenvChildList]
      decide

/-- Claim C3. Duplicate renderer names are not rejected at class-definition
time: the registration check compares the string `cls.name` against the list
of registered class objects, which is always `False`, so a second class named
`"dotenv"` is appended to the registry without any error. -/
theorem duplicate_generator_name_accepted :
    initSubclass [] ⟨0, some "dotenv", true⟩ = .ok [⟨0, some "dotenv", true⟩] ∧
    initSubclass [⟨0, some "dotenv", true⟩] ⟨1, some "dotenv", true⟩ =
      .ok [⟨0, some "dotenv", true⟩, ⟨1, some "dotenv", true⟩] :=
  ⟨rfl, rfl⟩

/-- Claim C5. `value_to_jsonable` catches only `PydanticSerializationError`:
when the external `TypeAdapter(value_type)` construction raises a
`PydanticSchemaGenerationError` (as pydantic does for a value of a plain
user-defined class), the exception propagates instead of falling back to
`str(value)` — so serialization does not "never raise". The second conjunct
shows the fallback does fire for a genuine serialization error. -/
theorem value_to_jsonable_schema_error_propagates :
    value_to_jsonable
        (fun _ => .error (.schemaGenerationError
          "Unable to generate pydantic-core schema for class Foo"))
        (fun _ => "<Foo object>") (.vobj "Foo") =
      .error (.schemaGenerationError
        "Unable to generate pydantic-core schema for class Foo") ∧
    value_to_jsonable
        (fun _ => .error (.serializationError "Unable to serialize value"))
        (fun _ => "<Foo object>") (.vobj "Foo") = .ok "<Foo object>" :=
  ⟨rfl, rfl⟩

/-- Claim C10. A non-`None` deprecated `name` in the dotenv configuration
replaces the whole `paths` list with the one-element list holding it. -/
theorem dotenv_name_overrides_paths (s : DotEnvSettings) (n : PyPath)
    (h : s.name = some n) :
    (DotEnvSettings.validate_paths s).paths = [n] := by
  simp [DotEnvSettings.validate_paths, h]

/-- Witness for C10 at a concrete configuration that supplies both `name` and
`paths`. -/
theorem dotenv_name_overrides_paths_witness :
    (DotEnvSettings.validate_paths
        { name := some ⟨false, [".env.sample"]⟩,
          paths := [⟨false, [".env.example"]⟩] }).paths = [⟨false, [".env.sample"]⟩] :=
  dotenv_name_overrides_paths _ _ rfl

/-- Claim C2. Idempotent writes: for any renderer (its `generate` result and
resolved file paths) and any descriptor list, when every target file already
holds exactly the generated text, `run` writes nothing and reports no paths;
the same holds for the coordinator `run_all` when every generator is up to
date. In particular a second `run` directly after a first one satisfies the
hypothesis, since the first run leaves every target holding the generated
text. -/
theorem run_second_time_writes_nothing (g : GeneratorModel)
    (gens : List GeneratorModel) (infos : List SettingsInfoModel)
    (fs : PyPath → Option String) :
    ((∀ p ∈ g.filePaths, fs p = some (g.gen infos)) →
      g.run infos fs = ([], fs)) ∧
    ((∀ g2 ∈ gens, ∀ p ∈ g2.filePaths, fs p = some (g2.gen infos)) →
      run_all gens infos fs = ([], fs)) :=
  ⟨fun h => runWrites_upToDate _ _ _ h, fun h => run_all_upToDate _ _ _ h⟩

/-- Witness for C2: the concrete generator `g0` against the up-to-date file
system `fs0`. -/
theorem run_second_time_writes_nothing_witness :
    GeneratorModel.run g0 [] fs0 = ([], fs0) ∧ run_all [g0] [] fs0 = ([], fs0) := by
  have hup : ∀ p ∈ GeneratorModel.filePaths g0, fs0 p = some (g0.gen []) := by
    intro p hp
    simp [GeneratorModel.filePaths, g0, PyPath.is_absolute, PyPath.joinPath] at hp
    subst hp
    rfl
  refine ⟨(run_second_time_writes_nothing g0 [g0] [] fs0).1 hup,
          (run_second_time_writes_nothing g0 [g0] [] fs0).2 ?_⟩
  intro g2 hg2 p hp
  have : g2 = g0 := by simpa using hg2
  subst this
  exact hup p hp

/-- Counterexample for C4: with the Markdown renderer in region mode and a
target file that does not exist, `_process_region` raises (the wrapped
`OSError`), but `run` returns normally — the error is caught inside the loop
and surfaces only as a warning, with no path reported as written. The claim
says the error propagates out of `run`. -/
theorem region_missing_file_run_returns_normally :
    processRegion (fun s => s) (fun _ => none) ⟨true, ["docs", "conf.md"]⟩ =
      .error (wrapOSErrorMsg ⟨true, ["docs", "conf.md"]⟩
        (fileNotFoundMsg ⟨true, ["docs", "conf.md"]⟩)) ∧
    markdownRunRegion (fun s => s) [⟨true, ["docs", "conf.md"]⟩] (fun _ => none) =
      ([], [wrapOSErrorMsg ⟨true, ["docs", "conf.md"]⟩
        (fileNotFoundMsg ⟨true, ["docs", "conf.md"]⟩)], fun _ => none) :=
  ⟨rfl, rfl⟩

/-- Claim C4 (amended). When a region-mode target file does not exist, the
error raised by `_process_region` is caught inside `run`: the path is skipped
(not reported as written), its wrapped error message is emitted as a warning,
and the loop carries on with the remaining paths over the unchanged file
system — `run` returns normally rather than propagating the error. -/
theorem region_missing_file_warns_and_continues (pc : String → String)
    (fs : PyPath → Option String) (p : PyPath) (ps : List PyPath)
    (h : fs p = none) :
    markdownRunRegion pc (p :: ps) fs =
      ((markdownRunRegion pc ps fs).1,
       wrapOSErrorMsg p (fileNotFoundMsg p) :: (markdownRunRegion pc ps fs).2.1,
       (markdownRunRegion pc ps fs).2.2) := by
  simp [markdownRunRegion, processRegion, h]

/-- Witness for the amended C4 at a concrete missing file followed by another
path. -/
theorem region_missing_file_warns_and_continues_witness :
    markdownRunRegion (fun s => s) [⟨true, ["a.md"]⟩, ⟨true, ["b.md"]⟩] (fun _ => none) =
      ((markdownRunRegion (fun s => s) [⟨true, ["b.md"]⟩] (fun _ => none)).1,
       wrapOSErrorMsg ⟨true, ["a.md"]⟩ (fileNotFoundMsg ⟨true, ["a.md"]⟩) ::
         (markdownRunRegion (fun s => s) [⟨true, ["b.md"]⟩] (fun _ => none)).2.1,
       (markdownRunRegion (fun s => s) [⟨true, ["b.md"]⟩] (fun _ => none)).2.2) :=
  region_missing_file_warns_and_continues (fun s => s) (fun _ => none)
    ⟨true, ["a.md"]⟩ [⟨true, ["b.md"]⟩] rfl

/-- Claim C6. For every field descriptor produced by field extraction,
`is_required` is true exactly when the extracted default is absent; and the
extracted default is absent exactly when the source field has neither an
explicit default nor a default factory — so no descriptor is both required
and carrying a default, nor optional without one. -/
theorem extracted_field_required_iff_default_absent (homeDir : PyPath)
    (ser : PyVal → String) (gs : Option PSESettings) (nm : String)
    (fi : PyFieldInfo) :
    ((from_settings_field homeDir ser gs nm fi).is_required = true ↔
      (from_settings_field homeDir ser gs nm fi).dflt = none) ∧
    ((from_settings_field homeDir ser gs nm fi).dflt = none ↔
      fi.dflt = none ∧ fi.default_factory = none) := by
  refine ⟨FieldInfoModel.is_required_iff _, ?_⟩
  cases fi with
  | mk ann dflt dfac desc exs al va dep excl =>
    cases dflt <;> cases dfac <;>
      simp [from_settings_field, create_default, PyFieldInfo.dflt,
        PyFieldInfo.default_factory]

/-- Claim C7. Prefix propagation: for a parent `BaseSettings` class with
effective `env_prefix` `"APP_"` (declared in its `model_config`) and a
nested-model field named `db` with `nested_delimiter` `"_"`, the extractor
builds the child descriptor with the recursive call at prefix
`("APP_" + "db" + "_").upper() = "APP_DB_"`, and the resulting child descriptor has
`env_prefix` `"APP_DB_"` whatever the child class declares. -/
theorem nested_child_env_prefix_propagation (homeDir : PyPath)
    (ser : PyVal → String) (gs : Option PSESettings) (child : PySettingsModel) :
    SettingsInfoModel.child_settings
        (from_settings_model homeDir ser gs "" "_" (parentModelOf child)) =
      [from_settings_model homeDir ser gs "APP_DB_" "_" child] ∧
    SettingsInfoModel.envPfx
        (from_settings_model homeDir ser gs "APP_DB_" "_" child) = "APP_DB_" := by
  have hup : pyUpper "APP_db_" = "APP_DB_" := by decide
  constructor
  · simp [parentModelOf, from_settings_model, fieldsWalk,
      SettingsInfoModel.child_settings, pyOrS, hup]
  · exact from_settings_model_envPfx homeDir ser gs "APP_DB_" "_" child (by decide)

/-- Counterexample for C8: for the Simple renderer, `generate_single` does not
append the rendering of the children — on a parent whose only content is a child
(itself rendering to a non-empty string at level 2), the output is identical
to the output for the same parent with no children at all. -/
theorem simple_generate_single_ignores_children :
    simpleGenerateSingle parentInfo 1 = simpleGenerateSingle parentNoChildInfo 1 ∧
    simpleGenerateSingle childInfo 2 ≠ "" := by
  exact ⟨rfl, by decide⟩

/-- Claim C8 (amended). The recursive structure of `generate_single` differs
per renderer: Markdown renders its own node and then appends the rendering
of each child recursively at `level + 1` (blank-line separated); DotEnv appends
the renderings of its children too, but every recursive call happens at the default
level `1` and the `level` argument has no effect on its output; Simple renders
only the own node of the descriptor and ignores `child_settings` entirely. -/
theorem generate_single_recursion_structure (mcfg : MarkdownSettings)
    (dcfg : DotEnvSettings) (si : SettingsInfoModel) (level level2 : Nat) :
    (mdGenerateSingle mcfg si level =
      mdNodeText mcfg si level ++ String.intercalate "\n\n"
        ((SettingsInfoModel.child_settings si).map
          (fun c => pyStrip (mdGenerateSingle mcfg c (level + 1))))) ∧
    (simpleGenerateSingle si level = simpleGenerateSingle si.dropChildren level) ∧
    (dotenvGenerateSingle dcfg si level = dotenvGenerateSingle dcfg si level2) ∧
    (dotenvGenerateSingle dcfg si level =
      dotenvNodeText dcfg si ++ String.join
        (((SettingsInfoModel.child_settings si).map
          (fun c => dotenvGenerateSingle dcfg c 1)).filter
            (fun r => pyStrip r != ""))) := by
  cases si with
  | mk n d p fs cs =>
    refine ⟨?_, rfl, ?_, ?_⟩
    · simp [mdGenerateSingle, mdChildList_eq_map, SettingsInfoModel.child_settings]
    · simp [dotenvGenerateSingle]
    · simp [dotenvGenerateSingle, dotenvChildList_eq_map, SettingsInfoModel.child_settings]

/-- Claim C9. `default_path` rewrite order for an absolute default under the
"replace absolute paths" policy: a path under the project root is rewritten to
the alias-prefixed relative form first, and since that result is no longer
absolute the subsequent home-directory check never fires — so a path under
both the project root and the home directory comes out prefixed with the alias
token, never with `"~"`; an absolute path under the home directory but not
under the project root comes out prefixed with `"~"`. -/
theorem default_path_rewrite_order (homeDir d : PyPath) (g : PSESettings)
    (hhome : homeDir.absolute = true)
    (hpol : g.relative_to.replace_abs_paths = true)
    (habs : d.absolute = true) :
    (d.isRelativeTo g.root_dir = true →
      default_path homeDir d (some g) =
        ⟨false, g.relative_to.aliasTok :: (d.relativeTo g.root_dir).parts⟩) ∧
    (d.isRelativeTo g.root_dir = false → d.isRelativeTo homeDir = true →
      default_path homeDir d (some g) =
        ⟨false, "~" :: (d.relativeTo homeDir).parts⟩) := by
  have hnr : ∀ xs : List String, PyPath.isRelativeTo ⟨false, xs⟩ homeDir = false := by
    intro xs
    simp [PyPath.isRelativeTo, hhome]
  constructor
  · intro hroot
    simp [default_path, PyPath.is_absolute, habs, hpol, hroot, hnr]
  · intro hroot hhomeRel
    simp [default_path, PyPath.is_absolute, habs, hpol, hroot, hhomeRel]

/-- Witness for C9: root `/home/u/proj`, home `/home/u`; the default
`/home/u/proj/cfg/a.txt` lies under both and comes out alias-prefixed, with no
`~`. -/
theorem default_path_rewrite_order_witness :
    default_path ⟨true, ["home", "u"]⟩ ⟨true, ["home", "u", "proj", "cfg", "a.txt"]⟩
        (some { root_dir := ⟨true, ["home", "u", "proj"]⟩,
                relative_to := { replace_abs_paths := true, aliasTok := "<project_dir>" },
                respect_exclude := true }) =
      ⟨false, ["<project_dir>", "cfg", "a.txt"]⟩ :=
  ((default_path_rewrite_order ⟨true, ["home", "u"]⟩
      ⟨true, ["home", "u", "proj", "cfg", "a.txt"]⟩
      { root_dir := ⟨true, ["home", "u", "proj"]⟩,
        relative_to := { replace_abs_paths := true, aliasTok := "<project_dir>" },
        respect_exclude := true }
      rfl rfl rfl).1 (by decide)).trans (by decide)
